import Mathlib

set_option maxHeartbeats 1000000

/-! Formal model of the `multi_ai_agent_web_app` repository.

The provided sources are the browser frontend (`frontend/js/ws.js`,
`chart.js`, `api.js`, `config.js`, `main.js`, `auth.js`, `history.js`,
`flow.js`, `file_upload.js`, `ui.js`, `costProgressApp.js`) together with
launcher and test scripts and the database bootstrap SQL; the FastAPI
backend (orchestrator, cost ledger, streaming hub, persistence) is
referenced by the README and the specification but is not among the
sources.  Frontend functions are embedded directly from their JavaScript
sources; backend behaviour is modelled from the specification and each
such definition is marked `Modelled from the spec:`.  JavaScript numbers
are embedded as rationals (`Rat`); JavaScript truthiness of optional
string and number fields is made explicit. -/

/-! ## CostChart (`chart.js`) -/

/-- The data held by a `CostChart` (`chart.js`): the x-axis labels and the
single dataset of cost values of the underlying line chart
(`this.chart.data.labels` and `this.chart.data.datasets[0].data`). -/
structure CostChart where
  labels : List String
  data : List Rat
deriving DecidableEq

/-- The `CostChart` constructor (`chart.js` lines 16-47): the chart starts
with empty `labels` and an empty dataset `data`. -/
def CostChart.init : CostChart := { labels := [], data := [] }

/-- `CostChart.add` (`chart.js` lines 54-58): pushes one label and one
value, leaving the previously stored entries in place. -/
def CostChart.add (c : CostChart) (label : String) (value : Rat) : CostChart :=
  { labels := c.labels ++ [label], data := c.data ++ [value] }

/-- `CostChart.reset` (`chart.js` lines 63-67): clears labels and data. -/
def CostChart.reset (_ : CostChart) : CostChart := { labels := [], data := [] }

/-- JavaScript method dispatch for a two-argument method call on a
`CostChart` instance: the class (`chart.js`) defines `add` and `reset`
only, and `add` is its only two-argument method; calling any other name
raises a TypeError, which `none` encodes. -/
def costChartCall (c : CostChart) (method : String) (label : String) (value : Rat) :
    Option CostChart :=
  if method = "add" then some (c.add label value) else none

/-! ## WSClient (`ws.js`) -/

/-- The `output_data` payload of a stream event: `cost_used` and `cost`
are the cost keys read by `ws.js` line 56; `raw` stands for the JSON
rendering `JSON.stringify(msg.output_data, null, 2)` used in the step
log. -/
structure OutputData where
  cost_used : Option Rat
  cost : Option Rat
  raw : String
deriving DecidableEq

/-- A live status stream event as read by `WSClient._handle` (`ws.js`),
shaped as in spec section 6. -/
structure Msg where
  sequence : Option Nat
  archive_id : Option String
  current_agent : Option String
  step_name : Option String
  output_data : Option OutputData
  from_agent : Option String
  to_agent : Option String
deriving DecidableEq

/-- JavaScript truthiness of an optional string field: `undefined` and the
empty string are falsy. -/
def truthyS : Option String → Bool
  | none => false
  | some s => s != ""

/-- The browser-visible state mutated by `WSClient._handle`: the download
link and its section, the active agent and phase badges, the highlighted
flow node, the two lists and the cost chart. -/
structure ClientState where
  downloadHref : Option String
  downloadHidden : Bool
  currentAgent : Option String
  currentPhase : Option String
  highlighted : Option String
  logList : List String
  interactionList : List String
  chart : CostChart
deriving DecidableEq

/-- `AGENT_NODE_MAP` (`flow.js` lines 57-64). -/
def agentNodeMap (agent : String) : Option String :=
  if agent = "DB Design" then some "DBD"
  else if agent = "UI Generation" then some "UI"
  else if agent = "Code Generation" then some "CODE"
  else if agent = "QA" then some "QA"
  else if agent = "Security" then some "SEC"
  else if agent = "Patch" then some "PATCH"
  else none

/-- `config.js` exports `Config.paths` only, so the `Config.apiBase` read
by `ws.js` line 28 is `undefined` and the template literal renders it as
the string "undefined". -/
def apiBaseStr : String := "undefined"

/-- The log entry markup appended for an event with a step name
(`ws.js` lines 43-47); a missing `output_data` renders as "undefined". -/
def logEntry (m : Msg) : String :=
  "<strong>" ++ m.step_name.getD "undefined" ++ "</strong><pre class=\"mb-0\">" ++
    (match m.output_data with
      | some o => o.raw
      | none => "undefined") ++ "</pre>"

/-- The agent interaction entry (`ws.js` lines 50-52). -/
def interactionEntry (m : Msg) : String :=
  m.from_agent.getD "undefined" ++ " → " ++ m.to_agent.getD "undefined"

/-- Fallback of the JavaScript expression `x || msg.output_data?.cost`:
a missing or zero second operand is falsy. -/
def fallbackCost : Option Rat → Option Rat
  | none => none
  | some w => if w = 0 then none else some w

/-- The cost value computed by `ws.js` line 56,
`Number(msg.output_data?.cost_used || msg.output_data?.cost)`, combined
with the `if (cost)` guard of line 57: a missing, zero or non-numeric cost
leads to no push attempt, which `none` encodes. -/
def jsCostOf : Option OutputData → Option Rat
  | none => none
  | some o =>
    match o.cost_used with
    | some v => if v = 0 then fallbackCost o.cost else some v
    | none => fallbackCost o.cost

/-- The active-agent block of `_handle` (`ws.js` lines 34-37): updates the
`currentAgent` badge and, via `Flow.highlight` (`flow.js` lines 123-138),
the highlighted flow node; an agent name outside `AGENT_NODE_MAP` leaves
the previous highlight in place. -/
def applyAgent (st : ClientState) (m : Msg) : ClientState :=
  if truthyS m.current_agent then
    { st with
      currentAgent := m.current_agent,
      highlighted :=
        match agentNodeMap (m.current_agent.getD "") with
        | some nodeId => some nodeId
        | none => st.highlighted }
  else st

/-- The phase badge block of `_handle` (`ws.js` lines 38-40). -/
def applyPhase (st : ClientState) (m : Msg) : ClientState :=
  if truthyS m.step_name then { st with currentPhase := m.step_name } else st

/-- The log block of `_handle` (`ws.js` lines 43-47): appends one entry to
`logList`. -/
def applyLog (st : ClientState) (m : Msg) : ClientState :=
  if truthyS m.step_name then { st with logList := st.logList ++ [logEntry m] } else st

/-- The agent-interaction block of `_handle` (`ws.js` lines 50-52). -/
def applyInteraction (st : ClientState) (m : Msg) : ClientState :=
  if truthyS m.from_agent then
    { st with interactionList := st.interactionList ++ [interactionEntry m] }
  else st

/-- The cost block of `_handle` (`ws.js` lines 55-58): computes the cost
and calls `this.chart.push(...)` inside `try ... catch {}`.  `CostChart`
defines no `push` method, so `costChartCall` returns `none`: the TypeError
is swallowed by the empty catch and the state is unchanged.  (`main.js`
line 193 even constructs `WSClient` without a chart argument, with the
same net effect: the call throws and is swallowed.) -/
def applyCost (st : ClientState) (m : Msg) : ClientState :=
  match jsCostOf m.output_data with
  | none => st
  | some c =>
    match costChartCall st.chart "push" (m.step_name.getD "undefined") c with
    | some ch => { st with chart := ch }
    | none => st

/-- `WSClient._handle` (`ws.js` lines 24-59): early return on a truthy
`archive_id` after setting the download link and unhiding its section;
otherwise the four blocks run in source order. -/
def WSClient.handle (st : ClientState) (m : Msg) : ClientState :=
  if truthyS m.archive_id then
    { st with
      downloadHref := some (apiBaseStr ++ "/logs/download/" ++ m.archive_id.getD ""),
      downloadHidden := false }
  else
    applyCost (applyInteraction (applyLog (applyPhase (applyAgent st m) m) m) m) m

/-- The `onclose` handler installed by `WSClient._connect` (`ws.js` lines
18-21): given the current retry counter, it either schedules exactly one
reconnection (returning the delay in milliseconds and the counter the new
connection is created with) or, once the counter is exhausted, schedules
nothing and only shows a toast. -/
def onCloseReconnect (retry : Nat) : Option (Nat × Nat) :=
  if retry < 5 then some (2 ^ retry * 1000, retry + 1) else none

/-- The number of reconnections a `WSClient` makes over a given number of
socket closes, starting from the given retry counter (the initial
connection is created with counter 0). -/
def reconnectCount : Nat → Nat → Nat
  | _, 0 => 0
  | retry, n + 1 =>
    match onCloseReconnect retry with
    | some (_, r2) => 1 + reconnectCount r2 n
    | none => 0

/-! ## CostProgress (`costProgressApp.js`) -/

/-- `CostProgress.fillPercentage` (`costProgressApp.js` lines 47-51):
`props.maxCost > 0 ? Math.min(100, (currentCost.value / props.maxCost) *
100) : 0`. -/
def fillPercentage (maxCost currentCost : Rat) : Rat :=
  if 0 < maxCost then min 100 (currentCost / maxCost * 100) else 0

/-! ## History table (`history.js`, `api.js`, `config.js`) -/

/-- Modelled from the spec: one item of the history query response; the
backend route behind `API.getHistory` is not among the sources, and spec
section 6 fixes the items to exactly the fields `id`, `filename` and
`created_at`. -/
structure HistoryItem where
  id : String
  filename : String
  created_at : String
deriving DecidableEq

/-- `API.archiveDownloadUrl` = `Config.paths.dl` (`api.js` line 33,
`config.js` line 194): the archive download URL for an id, relative to the
page origin and backend port rendered as the `origin` string. -/
def archiveDownloadUrl (origin : String) (id : String) : String :=
  origin ++ "/api/logs/download/" ++ id

/-- One rendered body row of the history table (`history.js` lines
343-356): the id cell, the link target and text of the filename cell, and
the formatted date cell. -/
structure HistoryRow where
  idCell : String
  href : String
  linkText : String
  dateCell : String
deriving DecidableEq

/-- `renderHistoryTable` (`history.js` lines 315-362): one body row per
item of the response, in order, with the download link built by
`API.archiveDownloadUrl(item.id)`; the locale date formatting
`new Date(item.created_at).toLocaleString()` is abstracted as `fmtDate`. -/
def renderHistoryTable (origin : String) (fmtDate : String → String)
    (data : List HistoryItem) : List HistoryRow :=
  data.map fun item =>
    { idCell := item.id
      href := archiveDownloadUrl origin item.id
      linkText := item.filename
      dateCell := fmtDate item.created_at }

/-! ## Workflow submission (`main.js`, `api.js`; backend modelled) -/

/-- The submit-workflow request body of spec section 6; `main.js` lines
187-190 send `project_name` and `requirement` and leave the optional
fields unspecified. -/
structure SubmitRequest where
  project_name : String
  requirement : String
  model : Option String
  budget_cap : Option Rat
  max_loops : Option Nat
deriving DecidableEq

/-- The submit-workflow response body of spec section 6, read by
`main.js` line 193 as `res.workflow_id`. -/
structure SubmitResponse where
  workflow_id : Nat
deriving DecidableEq

/-- Workflow status values (spec section 3). -/
inductive WorkflowStatus
  | pending
  | running
  | succeeded
  | failed
  | cancelled
deriving DecidableEq

/-- The Workflow record of spec section 3 (the attributes the submit
operation fills in). -/
structure Workflow where
  id : Nat
  project_name : String
  requirement : String
  model : Option String
  budget_cap : Option Rat
  max_loops : Nat
  status : WorkflowStatus
deriving DecidableEq

/-- Modelled from the spec: the backend submit operation
(`POST /api/workflow/async`, spec section 6) is not among the sources; it
creates a workflow run under a fresh identifier, defaults `max_loops` to 3
when the request leaves it unspecified, and returns `{workflow_id}` for
the created run. -/
def submitWorkflow (nextId : Nat) (req : SubmitRequest) : SubmitResponse × Workflow :=
  ({ workflow_id := nextId },
   { id := nextId
     project_name := req.project_name
     requirement := req.requirement
     model := req.model
     budget_cap := req.budget_cap
     max_loops := req.max_loops.getD 3
     status := WorkflowStatus.pending })

/-- The payload built by the start button handler (`main.js` lines
186-192): the trimmed project name and requirement, nothing else. -/
def startPayload (project requirement : String) : SubmitRequest :=
  { project_name := project.trim
    requirement := requirement.trim
    model := none
    budget_cap := none
    max_loops := none }

/-! ## Orchestration core (modelled from the spec) -/

/-- The named terminal failure reasons of spec section 7. -/
inductive FailReason
  | retryBudgetExhausted
  | budgetExceeded
  | agentError
deriving DecidableEq

/-- Outcome of running the quality-gate loop on a scripted list of gate
verdicts; `pending` means the scripted verdicts ended with the workflow
still running. -/
inductive RunResult
  | succeeded
  | failed (reason : FailReason)
  | pending
deriving DecidableEq

/-- Modelled from the spec: the backend Workflow State Machine (spec
section 4.3) is not among the sources.  `runGate max_loops loopCount
verdicts` runs the QA/Security quality-gate loop: each list element is one
gate verdict (`true` = passing) for one CodeGeneration→QA→Security
attempt.  On a failing verdict control returns to CodeGeneration and the
Loop Counter increments, unless that would exceed `max_loops`, in which
case the workflow transitions to Failed with reason RetryBudgetExhausted
instead of looping again (spec sections 3 and 4.3); on a passing verdict
the workflow proceeds through Archiving to Succeeded. -/
def runGate (max_loops : Nat) : Nat → List Bool → RunResult
  | _, [] => RunResult.pending
  | loopCount, verdict :: rest =>
    if verdict then RunResult.succeeded
    else if loopCount < max_loops then runGate max_loops (loopCount + 1) rest
    else RunResult.failed FailReason.retryBudgetExhausted

/-- Modelled from the spec: the number of retries of CodeGeneration
(Patch→CodeGeneration cycles) the quality-gate loop performs for the given
scripted verdicts, counted alongside `runGate`. -/
def gateRetries (max_loops : Nat) : Nat → List Bool → Nat
  | _, [] => 0
  | loopCount, verdict :: rest =>
    if verdict then 0
    else if loopCount < max_loops then 1 + gateRetries max_loops (loopCount + 1) rest
    else 0

/-- The per-workflow cost ledger state: the running total and the number
of agent invocations made so far. -/
structure LedgerState where
  current_total : Rat
  invocations : Nat
deriving DecidableEq

/-- Result of a ledger reservation (spec section 4.2). -/
inductive ReserveResult
  | ok
  | budgetExceeded
deriving DecidableEq

/-- Modelled from the spec: the Cost Ledger `reserve` operation (spec
section 4.2) is not among the sources: the advisory check whether the
estimated amount still fits under the budget cap. -/
def reserve (budget_cap : Rat) (st : LedgerState) (amount : Rat) : ReserveResult :=
  if budget_cap < st.current_total + amount then ReserveResult.budgetExceeded
  else ReserveResult.ok

/-- What the orchestrator did for one step: either it invoked the agent
(with the updated ledger), or it stopped with a terminal failure, the
ledger untouched. -/
inductive StepTaken
  | invoked (st : LedgerState)
  | terminalFailure (reason : FailReason) (st : LedgerState)
deriving DecidableEq

/-- Modelled from the spec: the orchestrator's pre-call budget check (spec
sections 4.2 and 4.3) is not among the sources: `reserve` is consulted
before invoking an agent whose estimated cost is known; a failed
reservation is treated as the terminal, non-retryable failure
BudgetExceeded and the agent is not invoked; otherwise the agent runs and
its actual cost is committed to the ledger. -/
def orchestrateStep (budget_cap : Rat) (st : LedgerState) (est actual : Rat) : StepTaken :=
  match reserve budget_cap st est with
  | ReserveResult.budgetExceeded => StepTaken.terminalFailure FailReason.budgetExceeded st
  | ReserveResult.ok =>
    StepTaken.invoked
      { current_total := st.current_total + actual, invocations := st.invocations + 1 }

/-! ## Streaming hub (modelled from the spec) -/

/-- The kinds of events on a workflow's stream: step events carrying the
step's sequence number and name, and the three terminal events (spec
sections 4.4 and 6). -/
inductive EventKind
  | step (sequence : Nat) (step_name : String)
  | succeeded
  | failed (reason : FailReason)
  | cancelled
deriving DecidableEq

/-- The terminal events of spec section 4.4: Succeeded, Failed and
Cancelled. -/
def isTerminal : EventKind → Bool
  | EventKind.step _ _ => false
  | _ => true

/-- Modelled from the spec: the Streaming Hub for one workflow run (spec
section 4.4) is not among the sources: the per-workflow event log together
with the closed flag that a terminal event sets. -/
structure Hub where
  log : List EventKind
  closed : Bool
deriving DecidableEq

/-- Modelled from the spec: publishing an event to the hub: once the
stream is closed no further event is ever accepted; publishing a terminal
event closes the stream for all current and future subscribers. -/
def publish (h : Hub) (e : EventKind) : Hub :=
  if h.closed then h
  else { log := h.log ++ [e], closed := isTerminal e }

/-- Modelled from the spec: a subscriber, current or future, receives the
full historical replay of the workflow's stream, i.e. the log. -/
def replay (h : Hub) : List EventKind := h.log

/-! ## Concrete inputs used by counterexamples and evaluations -/

/-- The initial browser state: no download link, hidden download section,
no badges, empty lists, a freshly constructed chart. -/
def exState : ClientState :=
  { downloadHref := none
    downloadHidden := true
    currentAgent := none
    currentPhase := none
    highlighted := none
    logList := []
    interactionList := []
    chart := CostChart.init }

/-- A step event with sequence number 1 and step name "QA", as a
subscriber may re-receive it after a reconnect. -/
def exMsg : Msg :=
  { sequence := some 1
    archive_id := none
    current_agent := none
    step_name := some "QA"
    output_data := none
    from_agent := none
    to_agent := none }

/-- A step event whose `output_data` reports the cost 1/2 under the key
`cost_used`. -/
def exCostMsg : Msg :=
  { sequence := some 3
    archive_id := none
    current_agent := none
    step_name := some "QA"
    output_data := some { cost_used := some (1 / 2), cost := none, raw := "..." }
    from_agent := none
    to_agent := none }

/-! ## Theorems -/

/-! ### Helper lemmas about `WSClient._handle` -/

theorem costChartCall_push (c : CostChart) (label : String) (value : Rat) :
    costChartCall c "push" label value = none := by
  simp [costChartCall]

theorem applyCost_eq (st : ClientState) (m : Msg) : applyCost st m = st := by
  unfold applyCost
  split
  · rfl
  · rw [costChartCall_push]

theorem applyAgent_logList (st : ClientState) (m : Msg) :
    (applyAgent st m).logList = st.logList := by
  unfold applyAgent; split <;> rfl

theorem applyPhase_logList (st : ClientState) (m : Msg) :
    (applyPhase st m).logList = st.logList := by
  unfold applyPhase; split <;> rfl

theorem applyInteraction_logList (st : ClientState) (m : Msg) :
    (applyInteraction st m).logList = st.logList := by
  unfold applyInteraction; split <;> rfl

theorem applyLog_logList (st : ClientState) (m : Msg) (h : truthyS m.step_name = true) :
    (applyLog st m).logList = st.logList ++ [logEntry m] := by
  unfold applyLog
  rw [if_pos h]

theorem applyAgent_chart (st : ClientState) (m : Msg) :
    (applyAgent st m).chart = st.chart := by
  unfold applyAgent; split <;> rfl

theorem applyPhase_chart (st : ClientState) (m : Msg) :
    (applyPhase st m).chart = st.chart := by
  unfold applyPhase; split <;> rfl

theorem applyLog_chart (st : ClientState) (m : Msg) :
    (applyLog st m).chart = st.chart := by
  unfold applyLog; split <;> rfl

theorem applyInteraction_chart (st : ClientState) (m : Msg) :
    (applyInteraction st m).chart = st.chart := by
  unfold applyInteraction; split <;> rfl

theorem handle_logList (st : ClientState) (m : Msg)
    (h1 : truthyS m.step_name = true) (h2 : truthyS m.archive_id = false) :
    (WSClient.handle st m).logList = st.logList ++ [logEntry m] := by
  have h2f : ¬ truthyS m.archive_id = true := by simp [h2]
  unfold WSClient.handle
  rw [if_neg h2f, applyCost_eq, applyInteraction_logList, applyLog_logList _ _ h1,
    applyPhase_logList, applyAgent_logList]

theorem handle_chart (st : ClientState) (m : Msg) :
    (WSClient.handle st m).chart = st.chart := by
  unfold WSClient.handle
  split
  · rfl
  · rw [applyCost_eq, applyInteraction_chart, applyLog_chart, applyPhase_chart,
      applyAgent_chart]

theorem handle_sequence_irrelevant (st : ClientState) (m : Msg) (n : Option Nat) :
    WSClient.handle st { m with sequence := n } = WSClient.handle st m := by
  cases m
  rfl

/-! ### Helper lemmas about the modelled orchestration core -/

theorem runGate_cons (max_loops loopCount : Nat) (verdict : Bool) (rest : List Bool) :
    runGate max_loops loopCount (verdict :: rest) =
      if verdict then RunResult.succeeded
      else if loopCount < max_loops then runGate max_loops (loopCount + 1) rest
      else RunResult.failed FailReason.retryBudgetExhausted := rfl

theorem gateRetries_cons (max_loops loopCount : Nat) (verdict : Bool) (rest : List Bool) :
    gateRetries max_loops loopCount (verdict :: rest) =
      if verdict then 0
      else if loopCount < max_loops then 1 + gateRetries max_loops (loopCount + 1) rest
      else 0 := rfl

theorem gateRetries_le (max_loops : Nat) (verdicts : List Bool) :
    ∀ loopCount, gateRetries max_loops loopCount verdicts ≤ max_loops - loopCount := by
  induction verdicts with
  | nil => intro lc; simp [gateRetries]
  | cons v rest ih =>
    intro lc
    cases v with
    | true => simp [gateRetries_cons]
    | false =>
      rw [gateRetries_cons, if_neg Bool.false_ne_true]
      by_cases hl : lc < max_loops
      · rw [if_pos hl]
        have h := ih (lc + 1)
        omega
      · rw [if_neg hl]
        omega

theorem runGate_all_fail (max_loops : Nat) :
    ∀ n loopCount, loopCount + n = max_loops →
      runGate max_loops loopCount (List.replicate (n + 1) false) =
        RunResult.failed FailReason.retryBudgetExhausted := by
  intro n
  induction n with
  | zero =>
    intro lc h
    have he : lc = max_loops := by omega
    subst he
    show runGate lc lc (List.replicate 1 false) = RunResult.failed FailReason.retryBudgetExhausted
    rw [List.replicate_one, runGate_cons, if_neg Bool.false_ne_true, if_neg (lt_irrefl lc)]
  | succ n ih =>
    intro lc h
    have hlt : lc < max_loops := by omega
    rw [List.replicate_succ, runGate_cons, if_neg Bool.false_ne_true, if_pos hlt]
    exact ih (lc + 1) (by omega)

/-! ### Helper lemmas about the modelled streaming hub -/

theorem publish_of_closed (h : Hub) (e : EventKind) (hc : h.closed = true) :
    publish h e = h := by
  simp [publish, hc]

theorem foldl_publish_closed (es : List EventKind) (h : Hub) (hc : h.closed = true) :
    List.foldl publish h es = h := by
  induction es generalizing h with
  | nil => rfl
  | cons e es ih => rw [List.foldl_cons, publish_of_closed h e hc]; exact ih h hc

/-! ### Helper lemma about the reconnect counter -/

theorem reconnectCount_eq (n : Nat) : ∀ retry, reconnectCount retry n = min n (5 - retry) := by
  induction n with
  | zero => intro r; simp only [reconnectCount]; omega
  | succ n ih =>
    intro r
    by_cases hr : r < 5
    · simp only [reconnectCount, onCloseReconnect, if_pos hr]
      rw [ih (r + 1)]
      omega
    · simp only [reconnectCount, onCloseReconnect, if_neg hr]
      omega

/-! ### Claim theorems -/

/-- C1 counterexample: the `WSClient` applies a re-received event a second
time: re-delivering the step event with sequence number 1 to the state
that already applied it yields a different client state (a second log
entry), so applying the delivered stream twice does not equal applying it
once, refuting idempotent application by sequence number. -/
theorem ws_reapply_not_idempotent :
    WSClient.handle (WSClient.handle exState exMsg) exMsg ≠ WSClient.handle exState exMsg := by
  intro he
  have e1 : (WSClient.handle exState exMsg).logList = exState.logList ++ [logEntry exMsg] :=
    handle_logList exState exMsg rfl rfl
  have e2 : (WSClient.handle (WSClient.handle exState exMsg) exMsg).logList =
      (WSClient.handle exState exMsg).logList ++ [logEntry exMsg] :=
    handle_logList _ exMsg rfl rfl
  rw [he, e1] at e2
  have hlen := congrArg List.length e2
  simp only [List.length_append, List.length_singleton] at hlen
  omega

/-- C1 (amended): the client performs no sequence-number deduplication:
`WSClient._handle` never reads the event's sequence number, and every
received event carrying a step name is applied unconditionally (one log
entry appended per application), so an event re-received after a reconnect
is applied again rather than discarded, and applying the delivered stream
twice does not leave the client state equal to applying it once. -/
theorem ws_no_sequence_dedup (st : ClientState) (m : Msg) (n : Option Nat)
    (h1 : truthyS m.step_name = true) (h2 : truthyS m.archive_id = false) :
    WSClient.handle st { m with sequence := n } = WSClient.handle st m ∧
    (WSClient.handle st m).logList.length = st.logList.length + 1 ∧
    (WSClient.handle (WSClient.handle st m) m).logList.length = st.logList.length + 2 := by
  refine ⟨handle_sequence_irrelevant st m n, ?_, ?_⟩
  · rw [handle_logList st m h1 h2]
    simp
  · rw [handle_logList _ m h1 h2, handle_logList st m h1 h2]
    simp

/-- Witness for C1 (amended) at the initial browser state and the step
event with sequence number 1 and step name "QA". -/
theorem ws_no_sequence_dedup_w :
    WSClient.handle exState { exMsg with sequence := none } = WSClient.handle exState exMsg ∧
    (WSClient.handle exState exMsg).logList.length = exState.logList.length + 1 ∧
    (WSClient.handle (WSClient.handle exState exMsg) exMsg).logList.length =
      exState.logList.length + 2 :=
  ws_no_sequence_dedup exState exMsg none rfl rfl

/-- C2 counterexample: with max_loops = 2, a workflow whose quality gate
fails exactly 2 times and then passes reaches Succeeded after the two
permitted Patch→CodeGeneration loops (this is the specification's own
concrete scenario in section 8), not Failed with RetryBudgetExhausted. -/
theorem gate_max_fails_then_pass_succeeds :
    runGate 2 0 [false, false, true] = RunResult.succeeded ∧
    RunResult.succeeded ≠ RunResult.failed FailReason.retryBudgetExhausted :=
  ⟨rfl, by decide⟩

/-- C2 (amended): a workflow whose QA/Security quality gate fails
max_loops + 1 times, failing on every attempt through the retry budget,
transitions to Failed with reason RetryBudgetExhausted; and for every
verdict sequence, CodeGeneration is retried at most max_loops times, so a
(max_loops+1)-th retry is never started. -/
theorem retry_budget_exhausted_on_extra_failure (max_loops : Nat) (verdicts : List Bool) :
    runGate max_loops 0 (List.replicate (max_loops + 1) false) =
      RunResult.failed FailReason.retryBudgetExhausted ∧
    gateRetries max_loops 0 verdicts ≤ max_loops := by
  refine ⟨runGate_all_fail max_loops max_loops 0 (by omega), ?_⟩
  have h := gateRetries_le max_loops verdicts 0
  omega

/-- C3: for every workflow whose next step's estimated cost would push the
ledger's current total above the budget cap, the orchestrator transitions
to Failed with the reason BudgetExceeded, distinct from
RetryBudgetExhausted, without invoking the agent for that step (the
ledger, including its invocation count, is untouched) and without
retrying (the failure constructor is terminal). -/
theorem budget_exceeded_skips_agent (budget_cap : Rat) (st : LedgerState) (est actual : Rat)
    (h : budget_cap < st.current_total + est) :
    orchestrateStep budget_cap st est actual =
      StepTaken.terminalFailure FailReason.budgetExceeded st ∧
    FailReason.budgetExceeded ≠ FailReason.retryBudgetExhausted := by
  constructor
  · simp [orchestrateStep, reserve, h]
  · decide

/-- Witness for C3: budget cap 1, running total 9/10, estimated next-step
cost 1/2. -/
theorem budget_exceeded_skips_agent_w :
    orchestrateStep 1 { current_total := 9 / 10, invocations := 2 } (1 / 2) (1 / 2) =
      StepTaken.terminalFailure FailReason.budgetExceeded
        { current_total := 9 / 10, invocations := 2 } ∧
    FailReason.budgetExceeded ≠ FailReason.retryBudgetExhausted :=
  budget_exceeded_skips_agent 1 { current_total := 9 / 10, invocations := 2 } (1 / 2) (1 / 2)
    (by norm_num)

/-- C4: a terminal event (Succeeded, Failed or Cancelled) ends the
workflow's event stream: publishing it closes the stream for all current
and future subscribers, every event published afterwards is refused (the
hub never changes again), so no client ever receives or applies a live
event published after the terminal one, and every later replay still ends
in that terminal event. -/
theorem terminal_event_closes_stream (h : Hub) (e : EventKind) (es : List EventKind)
    (hc : h.closed = false) (ht : isTerminal e = true) :
    (publish h e).closed = true ∧
    List.foldl publish (publish h e) es = publish h e ∧
    replay (List.foldl publish (publish h e) es) = h.log ++ [e] := by
  have hp : publish h e = { log := h.log ++ [e], closed := isTerminal e } := by
    simp [publish, hc]
  have hcl : (publish h e).closed = true := by rw [hp]; exact ht
  refine ⟨hcl, foldl_publish_closed es _ hcl, ?_⟩
  rw [foldl_publish_closed es _ hcl, hp]
  rfl

/-- Witness for C4: an open hub with an empty log, the terminal event
Succeeded, and one more event published after it. -/
theorem terminal_event_closes_stream_w :
    (publish { log := [], closed := false } EventKind.succeeded).closed = true ∧
    List.foldl publish (publish { log := [], closed := false } EventKind.succeeded)
        [EventKind.step 9 "late"] =
      publish { log := [], closed := false } EventKind.succeeded ∧
    replay
        (List.foldl publish (publish { log := [], closed := false } EventKind.succeeded)
          [EventKind.step 9 "late"]) =
      [] ++ [EventKind.succeeded] :=
  terminal_event_closes_stream { log := [], closed := false } EventKind.succeeded
    [EventKind.step 9 "late"] rfl rfl

/-- C5 (code evaluated at the failing input): the step event whose
`output_data` reports cost 1/2 under `cost_used` does carry a truthy cost,
yet the `CostChart` exposes no `push` method, so the call made by `ws.js`
fails and is swallowed by the empty catch: handling the event leaves the
chart unchanged and appends no point, contradicting the claimed one new
point per cost-reporting event. -/
theorem cost_event_appends_nothing :
    jsCostOf exCostMsg.output_data = some (1 / 2) ∧
    costChartCall exState.chart "push" "QA" (1 / 2) = none ∧
    (WSClient.handle exState exCostMsg).chart = exState.chart ∧
    (WSClient.handle exState exCostMsg).chart.data.length = exState.chart.data.length := by
  refine ⟨?_, costChartCall_push _ _ _, handle_chart exState exCostMsg, ?_⟩
  · norm_num [jsCostOf, exCostMsg, fallbackCost]
  · rw [handle_chart]

/-- C6: for every submit-workflow request carrying project_name and
requirement (model, budget_cap and max_loops optional), the submit
operation returns a response whose workflow_id identifies the created
workflow run, and the created run's max_loops defaults to 3 when the
request leaves it unspecified — as the payload built by the start button
does. -/
theorem submit_returns_workflow_id (nextId : Nat) (req : SubmitRequest) (p r : String) :
    (submitWorkflow nextId req).1.workflow_id = (submitWorkflow nextId req).2.id ∧
    (req.max_loops = none → (submitWorkflow nextId req).2.max_loops = 3) ∧
    (startPayload p r).max_loops = none := by
  refine ⟨rfl, ?_, rfl⟩
  intro h
  simp [submitWorkflow, h]

/-- Witness for C6 at id 7 and the payload the start button sends. -/
theorem submit_returns_workflow_id_w :
    (submitWorkflow 7 (startPayload "demo" "build a todo app")).1.workflow_id =
      (submitWorkflow 7 (startPayload "demo" "build a todo app")).2.id ∧
    (submitWorkflow 7 (startPayload "demo" "build a todo app")).2.max_loops = 3 := by
  have t :=
    submit_returns_workflow_id 7 (startPayload "demo" "build a todo app") "demo"
      "build a todo app"
  exact ⟨t.1, t.2.1 rfl⟩

/-- C7: the history table renders one body row per returned item, in the
returned order, and each row's download link is the archive-download URL
built from that item's id; the items carry exactly the fields id, filename
and created_at. -/
theorem history_rows_match_items (origin : String) (fmtDate : String → String)
    (data : List HistoryItem) :
    (renderHistoryTable origin fmtDate data).length = data.length ∧
    ∀ i : Nat,
      (renderHistoryTable origin fmtDate data)[i]? =
        (data[i]?).map fun item =>
          ({ idCell := item.id
             href := archiveDownloadUrl origin item.id
             linkText := item.filename
             dateCell := fmtDate item.created_at } : HistoryRow) := by
  constructor
  · simp [renderHistoryTable]
  · intro i
    simp [renderHistoryTable, List.getElem?_map]

/-- C8: each close of the WebSocket schedules at most one reconnection
(the handler returns at most one scheduled connection), delayed by
2 ^ retry * 1000 milliseconds where retry counts the reconnections already
made; over any number of closes at most 5 reconnections happen, and once
the counter is exhausted a close opens no further connection. -/
theorem ws_reconnect_bounded :
    (∀ n, reconnectCount 0 n ≤ 5) ∧
    (∀ retry delay r2, onCloseReconnect retry = some (delay, r2) →
      delay = 2 ^ retry * 1000 ∧ r2 = retry + 1) ∧
    (∀ retry, 5 ≤ retry → onCloseReconnect retry = none) := by
  refine ⟨?_, ?_, ?_⟩
  · intro n
    rw [reconnectCount_eq n 0]
    omega
  · intro retry delay r2 h
    by_cases hr : retry < 5
    · simp only [onCloseReconnect, if_pos hr, Option.some.injEq, Prod.mk.injEq] at h
      exact ⟨h.1.symm, h.2.symm⟩
    · simp [onCloseReconnect, hr] at h
  · intro retry hge
    simp [onCloseReconnect, Nat.not_lt.mpr hge]

/-- Witness for C8: nine closes yield at most five reconnections; the
first close schedules a 1000 ms delay and counter 1; the exhausted counter
schedules nothing. -/
theorem ws_reconnect_bounded_w :
    reconnectCount 0 9 ≤ 5 ∧
    (1000 = 2 ^ 0 * 1000 ∧ 1 = 0 + 1) ∧
    onCloseReconnect 5 = none :=
  ⟨ws_reconnect_bounded.1 9,
   ws_reconnect_bounded.2.1 0 1000 1 (by decide),
   ws_reconnect_bounded.2.2 5 (le_refl 5)⟩

/-- C9: for every CostChart, the number of x-axis labels equals the number
of data points: both are empty after construction; `add` appends exactly
one label and one value, leaving all previously stored labels and values
unchanged, and preserves the invariant; `reset` leaves both empty. -/
theorem costChart_labels_match_data (c : CostChart) (label : String) (value : Rat)
    (h : c.labels.length = c.data.length) :
    CostChart.init.labels.length = CostChart.init.data.length ∧
    (c.add label value).labels = c.labels ++ [label] ∧
    (c.add label value).data = c.data ++ [value] ∧
    (c.add label value).labels.length = (c.add label value).data.length ∧
    (c.reset).labels.length = (c.reset).data.length := by
  refine ⟨rfl, rfl, rfl, ?_, rfl⟩
  simp [CostChart.add, h]

/-- Witness for C9 at the freshly constructed chart and one added point. -/
theorem costChart_labels_match_data_w :
    CostChart.init.labels.length = CostChart.init.data.length ∧
    (CostChart.init.add "#1" (3 / 100)).labels = CostChart.init.labels ++ ["#1"] ∧
    (CostChart.init.add "#1" (3 / 100)).data = CostChart.init.data ++ [3 / 100] ∧
    (CostChart.init.add "#1" (3 / 100)).labels.length =
      (CostChart.init.add "#1" (3 / 100)).data.length ∧
    (CostChart.init.reset).labels.length = (CostChart.init.reset).data.length :=
  costChart_labels_match_data CostChart.init "#1" (3 / 100) rfl

/-- C10: for every currentCost ≥ 0 and every maxCost, the computed
fillPercentage lies between 0 and 100 inclusive; it equals 0 whenever
maxCost ≤ 0 and min 100 (currentCost / maxCost * 100) otherwise, so the
progress bar width never exceeds 100 percent. -/
theorem fillPercentage_in_range (maxCost currentCost : Rat) (hc : 0 ≤ currentCost) :
    0 ≤ fillPercentage maxCost currentCost ∧
    fillPercentage maxCost currentCost ≤ 100 ∧
    (maxCost ≤ 0 → fillPercentage maxCost currentCost = 0) ∧
    (0 < maxCost → fillPercentage maxCost currentCost = min 100 (currentCost / maxCost * 100)) := by
  by_cases hm : 0 < maxCost
  · have hx : 0 ≤ currentCost / maxCost * 100 :=
      mul_nonneg (div_nonneg hc (le_of_lt hm)) (by norm_num)
    refine ⟨?_, ?_, fun hle => absurd hm (not_lt.mpr hle), fun _ => by simp [fillPercentage, hm]⟩
    · simpa [fillPercentage, hm] using le_min (by norm_num : (0 : Rat) ≤ 100) hx
    · simp [fillPercentage, hm]
  · have h0 : fillPercentage maxCost currentCost = 0 := by simp [fillPercentage, hm]
    exact ⟨by rw [h0], by rw [h0]; norm_num, fun _ => h0, fun h => absurd h hm⟩

/-- Witness for C10 at maxCost 2 and currentCost 5 (a total cost above the
cap, where the computed width is clamped). -/
theorem fillPercentage_in_range_w :
    0 ≤ fillPercentage 2 5 ∧
    fillPercentage 2 5 ≤ 100 ∧
    ((2 : Rat) ≤ 0 → fillPercentage 2 5 = 0) ∧
    (0 < (2 : Rat) → fillPercentage 2 5 = min 100 (5 / 2 * 100)) :=
  fillPercentage_in_range 2 5 (by norm_num)
